import Mathlib

/-!
Verification of the wanyumba-scrapper scraping orchestration core.

The definitions below are a shallow embedding of the repository's Python
code: `app/services/database_service.py` (listing/agent upsert),
`app/services/kupatana_service.py` (basic pagination sweep and detail
extraction), `app/services/base_scraper_service.py` (detail sweep task,
fill-missing-details task, auto-cycle loop) and
`app/api/routes/scraping.py` (the scrape-listings endpoint).

Python dictionaries used as payloads are modelled with a two-level
`Option`: the outer level is key presence (`'k' in data`), the inner level
is null-ness of the stored value.  Database rows are lists of records;
timestamps are abstract `Nat` instants supplied by the caller.
-/

namespace Wanyumba

/-- Python `data.get(key)`: `none` when the key is absent, otherwise the
stored value (which may itself be `none`, i.e. Python's `None`). -/
def pyGet {α : Type} (entry : Option (Option α)) : Option α :=
  entry.getD none

/-- Python `data.get(key, default)`: the stored value when the key is
present (possibly `None`), the default otherwise. -/
def pyGetD {α : Type} (entry : Option (Option α)) (dflt : α) : Option α :=
  match entry with
  | some v => v
  | none => some dflt

/-- Python truthiness of an optional string: `None` and `''` are falsy. -/
def truthy : Option String → Bool
  | none => false
  | some s => !(s == "")

/-- Embedding of `if key in data: field = data.get(key)`: the stored value
replaces the old one exactly when the key is present in the payload. -/
def updWhenPresent {α : Type} (entry : Option (Option α)) (old : Option α) : Option α :=
  match entry with
  | some v => v
  | none => old

@[simp] theorem pyGet_none {α : Type} : pyGet (α := α) none = none := rfl

@[simp] theorem pyGet_some {α : Type} (v : Option α) : pyGet (some v) = v := rfl

@[simp] theorem pyGetD_none {α : Type} (d : α) : pyGetD none d = some d := rfl

@[simp] theorem pyGetD_some {α : Type} (v : Option α) (d : α) : pyGetD (some v) d = v := rfl

@[simp] theorem updWhenPresent_none {α : Type} (old : Option α) :
    updWhenPresent none old = old := rfl

@[simp] theorem updWhenPresent_some {α : Type} (v old : Option α) :
    updWhenPresent (some v) old = v := rfl

@[simp] theorem truthy_none : truthy none = false := rfl

/-- Replace the first element satisfying `p` (SQLAlchemy's
`query.filter(...).first()` followed by in-place mutation of that row). -/
def replaceFirst {α : Type} (p : α → Bool) (f : α → α) : List α → List α
  | [] => []
  | x :: xs => if p x then f x :: xs else x :: replaceFirst p f xs

/-- Canonical listing row, with exactly the columns read and written by
`DatabaseService.create_or_update_listing`. -/
structure Listing where
  raw_url : String
  source : Option String := none
  source_listing_id : Option String := none
  scrape_timestamp : Option Nat := none
  title : Option String := none
  description : Option String := none
  property_type : Option String := none
  listing_type : Option String := none
  status : Option String := none
  price : Option Int := none
  price_currency : Option String := none
  price_period : Option String := none
  country : Option String := none
  region : Option String := none
  city : Option String := none
  district : Option String := none
  address_text : Option String := none
  latitude : Option Int := none
  longitude : Option Int := none
  bedrooms : Option Int := none
  bathrooms : Option Int := none
  living_area_sqm : Option Int := none
  land_area_sqm : Option Int := none
  images : Option (List String) := none
  agent_name : Option String := none
  agent_phone : Option String := none
  agent_whatsapp : Option String := none
  agent_email : Option String := none
  agent_website : Option String := none
  agent_profile_url : Option String := none
  created_at : Option Nat := none
  updated_at : Option Nat := none
  deriving Repr, DecidableEq

/-- Scraper payload dictionary passed to `create_or_update_listing`.
Outer `Option` = key presence, inner `Option` = Python `None`. -/
structure ScrapeData where
  raw_url : Option String := none
  source : Option (Option String) := none
  source_listing_id : Option (Option String) := none
  scrape_timestamp : Option (Option Nat) := none
  title : Option (Option String) := none
  description : Option (Option String) := none
  property_type : Option (Option String) := none
  listing_type : Option (Option String) := none
  status : Option (Option String) := none
  price : Option (Option Int) := none
  price_currency : Option (Option String) := none
  price_period : Option (Option String) := none
  country : Option (Option String) := none
  region : Option (Option String) := none
  city : Option (Option String) := none
  district : Option (Option String) := none
  address_text : Option (Option String) := none
  latitude : Option (Option Int) := none
  longitude : Option (Option Int) := none
  bedrooms : Option (Option Int) := none
  bathrooms : Option (Option Int) := none
  living_area_sqm : Option (Option Int) := none
  land_area_sqm : Option (Option Int) := none
  images : Option (Option (List String)) := none
  agent_name : Option (Option String) := none
  agent_phone : Option (Option String) := none
  agent_whatsapp : Option (Option String) := none
  agent_email : Option (Option String) := none
  agent_website : Option (Option String) := none
  agent_profile_url : Option (Option String) := none
  deriving Repr, DecidableEq

/-- Agent row (table keyed by phone number). -/
structure Agent where
  phone : String
  name : Option String := none
  email : Option String := none
  created_at : Option Nat := none
  updated_at : Option Nat := none
  deriving Repr, DecidableEq

/-- The relational store: one listings table and one agents table. -/
structure DB where
  listings : List Listing := []
  agents : List Agent := []
  deriving Repr, DecidableEq

/-- Embedding of `DatabaseService.create_or_update_agent`: no-op on a falsy
phone; otherwise update the existing row keyed by phone (only fields with
truthy, different new values; `updated_at` bumped iff something changed)
or insert a fresh row. -/
def create_or_update_agent (agents : List Agent) (phone : Option String)
    (name email : Option String) (now : Nat) : List Agent :=
  if !(truthy phone) then agents
  else
    let p := phone.getD ""
    match agents.find? (fun a => a.phone == p) with
    | some _ =>
        replaceFirst (fun a => a.phone == p)
          (fun a =>
            let setName := truthy name && !(name == a.name)
            let setEmail := truthy email && !(email == a.email)
            { a with
              name := if setName then name else a.name
              email := if setEmail then email else a.email
              updated_at := if setName || setEmail then some now else a.updated_at })
          agents
    | none => agents ++ [{ phone := p, name := name, email := email, created_at := some now }]

/-- Full-vs-partial update discriminator of `create_or_update_listing`:
`'agent_name' in data and data.get('agent_name') is not None`. -/
def hasAgentName (d : ScrapeData) : Bool :=
  match d.agent_name with
  | some (some _) => true
  | _ => false

/-- Full update branch: every enumerated field present in the payload
overwrites the row, and `updated_at` is set to the current instant. -/
def fullUpdate (d : ScrapeData) (now : Nat) (ex : Listing) : Listing :=
  { ex with
    source := updWhenPresent d.source ex.source
    source_listing_id := updWhenPresent d.source_listing_id ex.source_listing_id
    scrape_timestamp := updWhenPresent d.scrape_timestamp ex.scrape_timestamp
    title := updWhenPresent d.title ex.title
    description := updWhenPresent d.description ex.description
    property_type := updWhenPresent d.property_type ex.property_type
    listing_type := updWhenPresent d.listing_type ex.listing_type
    status := updWhenPresent d.status ex.status
    price := updWhenPresent d.price ex.price
    price_currency := updWhenPresent d.price_currency ex.price_currency
    price_period := updWhenPresent d.price_period ex.price_period
    country := updWhenPresent d.country ex.country
    region := updWhenPresent d.region ex.region
    city := updWhenPresent d.city ex.city
    district := updWhenPresent d.district ex.district
    address_text := updWhenPresent d.address_text ex.address_text
    latitude := updWhenPresent d.latitude ex.latitude
    longitude := updWhenPresent d.longitude ex.longitude
    bedrooms := updWhenPresent d.bedrooms ex.bedrooms
    bathrooms := updWhenPresent d.bathrooms ex.bathrooms
    living_area_sqm := updWhenPresent d.living_area_sqm ex.living_area_sqm
    land_area_sqm := updWhenPresent d.land_area_sqm ex.land_area_sqm
    images := updWhenPresent d.images ex.images
    agent_name := updWhenPresent d.agent_name ex.agent_name
    agent_phone := updWhenPresent d.agent_phone ex.agent_phone
    agent_whatsapp := updWhenPresent d.agent_whatsapp ex.agent_whatsapp
    agent_email := updWhenPresent d.agent_email ex.agent_email
    agent_website := updWhenPresent d.agent_website ex.agent_website
    agent_profile_url := updWhenPresent d.agent_profile_url ex.agent_profile_url
    updated_at := some now }

/-- Index-only update branch: only `title`, `price`, `price_currency` are
overwritten; `updated_at` is not touched. -/
def indexOnlyUpdate (d : ScrapeData) (ex : Listing) : Listing :=
  { ex with
    title := updWhenPresent d.title ex.title
    price := updWhenPresent d.price ex.price
    price_currency := updWhenPresent d.price_currency ex.price_currency }

/-- Update applied to an existing row by `create_or_update_listing`. -/
def updateExisting (d : ScrapeData) (now : Nat) (ex : Listing) : Listing :=
  if hasAgentName d then fullUpdate d now ex else indexOnlyUpdate d ex

/-- Fresh row created by `create_or_update_listing` when no row with the
payload's `raw_url` exists (`RealEstateListing(...)` constructor call,
with the code's defaults for `source`, `status`, `images`, `created_at`). -/
def newListingFrom (d : ScrapeData) (u : String) (target_site : String) (now : Nat) : Listing :=
  { raw_url := u
    source := pyGetD d.source target_site
    source_listing_id := pyGet d.source_listing_id
    scrape_timestamp := pyGet d.scrape_timestamp
    title := pyGet d.title
    description := pyGet d.description
    property_type := pyGet d.property_type
    listing_type := pyGet d.listing_type
    status := pyGetD d.status "active"
    price := pyGet d.price
    price_currency := pyGet d.price_currency
    price_period := pyGet d.price_period
    country := pyGet d.country
    region := pyGet d.region
    city := pyGet d.city
    district := pyGet d.district
    address_text := pyGet d.address_text
    latitude := pyGet d.latitude
    longitude := pyGet d.longitude
    bedrooms := pyGet d.bedrooms
    bathrooms := pyGet d.bathrooms
    living_area_sqm := pyGet d.living_area_sqm
    land_area_sqm := pyGet d.land_area_sqm
    images := pyGetD d.images []
    agent_name := pyGet d.agent_name
    agent_phone := pyGet d.agent_phone
    agent_whatsapp := pyGet d.agent_whatsapp
    agent_email := pyGet d.agent_email
    agent_website := pyGet d.agent_website
    agent_profile_url := pyGet d.agent_profile_url
    created_at := some now
    updated_at := none }

/-- Agent rows after the agent side effect of `create_or_update_listing`:
when the payload carries a truthy `agent_phone`, the agent keyed by that
phone is created or updated before the listing is looked up. -/
def upsertAgents (db : DB) (d : ScrapeData) (now : Nat) : List Agent :=
  if truthy (pyGet d.agent_phone) then
    create_or_update_agent db.agents (pyGet d.agent_phone) (pyGet d.agent_name)
      (pyGet d.agent_email) now
  else db.agents

/-- Embedding of `DatabaseService.create_or_update_listing`: reject a falsy
`raw_url` with `ValueError`; otherwise upsert the agent (when the payload
carries a truthy `agent_phone`, via `upsertAgents`, which the source runs
before the listing lookup), then update the row keyed by `raw_url`
in place when it exists, else insert a fresh row. -/
def create_or_update_listing (db : DB) (d : ScrapeData) (target_site : String)
    (now : Nat) : Except String DB :=
  match d.raw_url with
  | none => .error "raw_url is required in data dictionary"
  | some u =>
    if u == "" then .error "raw_url is required in data dictionary"
    else
      match db.listings.find? (fun l => l.raw_url == u) with
      | some _ =>
          .ok { listings := replaceFirst (fun l => l.raw_url == u) (updateExisting d now) db.listings
                agents := upsertAgents db d now }
      | none =>
          .ok { listings := db.listings ++ [newListingFrom d u target_site now]
                agents := upsertAgents db d now }

/-- One call to `create_or_update_listing`, with its arguments. -/
structure UpsertCall where
  data : ScrapeData
  target_site : String
  now : Nat

/-- Apply one upsert call; a raised `ValueError` leaves the store unchanged
(the exception propagates before any write). -/
def applyUpsert (db : DB) (c : UpsertCall) : DB :=
  match create_or_update_listing db c.data c.target_site c.now with
  | .ok db' => db'
  | .error _ => db

/-- Apply a sequence of upsert calls in order. -/
def applyUpserts (db : DB) (cs : List UpsertCall) : DB :=
  cs.foldl applyUpsert db

/-- Number of rows in the store whose `raw_url` equals `u`. -/
def urlRows (db : DB) (u : String) : Nat :=
  (db.listings.filter (fun l => l.raw_url == u)).length

/-- The `raw_url` column of every row of the store, in order. -/
def dbUrls (db : DB) : List String :=
  db.listings.map (fun l => l.raw_url)

/-- Spec-side reading of "field f is overwritten by the payload": a key
present in the payload replaces the stored value (even by null), an
absent key leaves the stored value alone. -/
def OverwrittenBy {α : Type} (entry : Option (Option α)) (old new : Option α) : Prop :=
  (∀ v, entry = some v → new = v) ∧ (entry = none → new = old)

theorem overwrittenBy_updWhenPresent {α : Type} (entry : Option (Option α)) (old : Option α) :
    OverwrittenBy entry old (updWhenPresent entry old) := by
  cases entry <;> simp [OverwrittenBy]

theorem updateExisting_raw_url (d : ScrapeData) (now : Nat) (ex : Listing) :
    (updateExisting d now ex).raw_url = ex.raw_url := by
  cases h : hasAgentName d <;>
    simp [updateExisting, h, fullUpdate, indexOnlyUpdate]

theorem map_raw_url_replaceFirst (p : Listing → Bool) (f : Listing → Listing)
    (hf : ∀ x, (f x).raw_url = x.raw_url) (l : List Listing) :
    (replaceFirst p f l).map (fun x => x.raw_url) = l.map (fun x => x.raw_url) := by
  induction l with
  | nil => rfl
  | cons x xs ih =>
      by_cases hp : p x <;> simp [replaceFirst, hp, hf, ih]

theorem length_replaceFirst {α : Type} (p : α → Bool) (f : α → α) (l : List α) :
    (replaceFirst p f l).length = l.length := by
  induction l with
  | nil => rfl
  | cons x xs ih =>
      by_cases hp : p x <;> simp [replaceFirst, hp, ih]

theorem urlRows_eq_count (db : DB) (u : String) :
    urlRows db u = (dbUrls db).count u := by
  unfold urlRows dbUrls
  induction db.listings with
  | nil => rfl
  | cons x xs ih =>
      by_cases hx : x.raw_url = u <;>
        simp [List.count_cons, hx, ih]

theorem applyUpsert_nodup (db : DB) (c : UpsertCall) (h : (dbUrls db).Nodup) :
    (dbUrls (applyUpsert db c)).Nodup := by
  rcases hr : c.data.raw_url with _ | u
  · simpa [applyUpsert, create_or_update_listing, hr] using h
  · by_cases hu : u = ""
    · subst hu
      simpa [applyUpsert, create_or_update_listing, hr] using h
    · have hbu : (u == "") = false := by simpa using hu
      cases hf : db.listings.find? (fun l => l.raw_url == u) with
      | some ex =>
          simpa [applyUpsert, create_or_update_listing, hr, hbu, hf, dbUrls,
            map_raw_url_replaceFirst _ _ (updateExisting_raw_url c.data c.now)] using h
      | none =>
          have hnotin : u ∉ db.listings.map (fun l => l.raw_url) := by
            intro hmem
            rcases List.mem_map.mp hmem with ⟨l, hl, hlu⟩
            have := List.find?_eq_none.mp hf l hl
            simp [hlu] at this
          simp only [applyUpsert, create_or_update_listing, hr, hbu, hf, dbUrls]
          simp only [Bool.false_eq_true, if_false, List.map_append, List.map_cons, List.map_nil]
          refine List.Nodup.append h (List.nodup_singleton u) ?_
          intro a ha hb
          simp only [newListingFrom, List.mem_singleton] at hb
          subst hb
          exact hnotin ha

theorem applyUpserts_nodup (cs : List UpsertCall) (db : DB) (h : (dbUrls db).Nodup) :
    (dbUrls (applyUpserts db cs)).Nodup := by
  induction cs generalizing db with
  | nil => simpa [applyUpserts] using h
  | cons c cs ih =>
      simpa [applyUpserts, List.foldl_cons] using ih (applyUpsert db c) (applyUpsert_nodup db c h)

/-- C1: for every existing listing row and every update payload passed to
`create_or_update_listing`, a payload with no non-null `agent_name` key
overwrites only `title`, `price` and `price_currency` and leaves
`updated_at` (and every other field) unchanged, while a payload with a
non-null `agent_name` overwrites every field present in the payload and
bumps `updated_at` to the current instant. -/
theorem C1_update_strategy (db : DB) (d : ScrapeData) (site : String) (now : Nat)
    (u : String) (ex : Listing)
    (hurl : d.raw_url = some u) (hne : u ≠ "")
    (hfind : db.listings.find? (fun l => l.raw_url == u) = some ex) :
    create_or_update_listing db d site now =
      .ok { listings := replaceFirst (fun l => l.raw_url == u) (updateExisting d now) db.listings
            agents := upsertAgents db d now } ∧
    (hasAgentName d = false →
      OverwrittenBy d.title ex.title (updateExisting d now ex).title ∧
      OverwrittenBy d.price ex.price (updateExisting d now ex).price ∧
      OverwrittenBy d.price_currency ex.price_currency (updateExisting d now ex).price_currency ∧
      (updateExisting d now ex).updated_at = ex.updated_at ∧
      (updateExisting d now ex).raw_url = ex.raw_url ∧
      (updateExisting d now ex).source = ex.source ∧
      (updateExisting d now ex).source_listing_id = ex.source_listing_id ∧
      (updateExisting d now ex).scrape_timestamp = ex.scrape_timestamp ∧
      (updateExisting d now ex).description = ex.description ∧
      (updateExisting d now ex).property_type = ex.property_type ∧
      (updateExisting d now ex).listing_type = ex.listing_type ∧
      (updateExisting d now ex).status = ex.status ∧
      (updateExisting d now ex).price_period = ex.price_period ∧
      (updateExisting d now ex).country = ex.country ∧
      (updateExisting d now ex).region = ex.region ∧
      (updateExisting d now ex).city = ex.city ∧
      (updateExisting d now ex).district = ex.district ∧
      (updateExisting d now ex).address_text = ex.address_text ∧
      (updateExisting d now ex).latitude = ex.latitude ∧
      (updateExisting d now ex).longitude = ex.longitude ∧
      (updateExisting d now ex).bedrooms = ex.bedrooms ∧
      (updateExisting d now ex).bathrooms = ex.bathrooms ∧
      (updateExisting d now ex).living_area_sqm = ex.living_area_sqm ∧
      (updateExisting d now ex).land_area_sqm = ex.land_area_sqm ∧
      (updateExisting d now ex).images = ex.images ∧
      (updateExisting d now ex).agent_name = ex.agent_name ∧
      (updateExisting d now ex).agent_phone = ex.agent_phone ∧
      (updateExisting d now ex).agent_whatsapp = ex.agent_whatsapp ∧
      (updateExisting d now ex).agent_email = ex.agent_email ∧
      (updateExisting d now ex).agent_website = ex.agent_website ∧
      (updateExisting d now ex).agent_profile_url = ex.agent_profile_url ∧
      (updateExisting d now ex).created_at = ex.created_at) ∧
    (hasAgentName d = true →
      (updateExisting d now ex).updated_at = some now ∧
      OverwrittenBy d.source ex.source (updateExisting d now ex).source ∧
      OverwrittenBy d.source_listing_id ex.source_listing_id (updateExisting d now ex).source_listing_id ∧
      OverwrittenBy d.scrape_timestamp ex.scrape_timestamp (updateExisting d now ex).scrape_timestamp ∧
      OverwrittenBy d.title ex.title (updateExisting d now ex).title ∧
      OverwrittenBy d.description ex.description (updateExisting d now ex).description ∧
      OverwrittenBy d.property_type ex.property_type (updateExisting d now ex).property_type ∧
      OverwrittenBy d.listing_type ex.listing_type (updateExisting d now ex).listing_type ∧
      OverwrittenBy d.status ex.status (updateExisting d now ex).status ∧
      OverwrittenBy d.price ex.price (updateExisting d now ex).price ∧
      OverwrittenBy d.price_currency ex.price_currency (updateExisting d now ex).price_currency ∧
      OverwrittenBy d.price_period ex.price_period (updateExisting d now ex).price_period ∧
      OverwrittenBy d.country ex.country (updateExisting d now ex).country ∧
      OverwrittenBy d.region ex.region (updateExisting d now ex).region ∧
      OverwrittenBy d.city ex.city (updateExisting d now ex).city ∧
      OverwrittenBy d.district ex.district (updateExisting d now ex).district ∧
      OverwrittenBy d.address_text ex.address_text (updateExisting d now ex).address_text ∧
      OverwrittenBy d.latitude ex.latitude (updateExisting d now ex).latitude ∧
      OverwrittenBy d.longitude ex.longitude (updateExisting d now ex).longitude ∧
      OverwrittenBy d.bedrooms ex.bedrooms (updateExisting d now ex).bedrooms ∧
      OverwrittenBy d.bathrooms ex.bathrooms (updateExisting d now ex).bathrooms ∧
      OverwrittenBy d.living_area_sqm ex.living_area_sqm (updateExisting d now ex).living_area_sqm ∧
      OverwrittenBy d.land_area_sqm ex.land_area_sqm (updateExisting d now ex).land_area_sqm ∧
      OverwrittenBy d.images ex.images (updateExisting d now ex).images ∧
      OverwrittenBy d.agent_name ex.agent_name (updateExisting d now ex).agent_name ∧
      OverwrittenBy d.agent_phone ex.agent_phone (updateExisting d now ex).agent_phone ∧
      OverwrittenBy d.agent_whatsapp ex.agent_whatsapp (updateExisting d now ex).agent_whatsapp ∧
      OverwrittenBy d.agent_email ex.agent_email (updateExisting d now ex).agent_email ∧
      OverwrittenBy d.agent_website ex.agent_website (updateExisting d now ex).agent_website ∧
      OverwrittenBy d.agent_profile_url ex.agent_profile_url (updateExisting d now ex).agent_profile_url ∧
      (updateExisting d now ex).raw_url = ex.raw_url ∧
      (updateExisting d now ex).created_at = ex.created_at) := by
  have hbu : (u == "") = false := by simpa using hne
  refine ⟨?_, ?_, ?_⟩
  · simp [create_or_update_listing, hurl, hbu, hfind]
  · intro h
    simp [updateExisting, h, indexOnlyUpdate, overwrittenBy_updWhenPresent]
  · intro h
    simp [updateExisting, h, fullUpdate, overwrittenBy_updWhenPresent]

/-- Concrete existing row used by the C1 witness. -/
def exC1 : Listing :=
  { raw_url := "https://kupatana.com/ad/1", title := some "old title",
    price := some 100, updated_at := some 3, agent_name := some "Alice" }

/-- Concrete store used by the C1 witness. -/
def dbC1 : DB := { listings := [exC1] }

/-- Concrete index-scrape payload (no `agent_name` key) used by the C1 witness. -/
def dC1 : ScrapeData :=
  { raw_url := some "https://kupatana.com/ad/1", title := some (some "new title"),
    price := some (some 120), price_currency := some (some "TSh") }

/-- Witness for C1: on a concrete store and index-only payload the row's
title is overwritten while `updated_at` and `agent_name` stay unchanged. -/
theorem C1_update_strategy_witness :
    (updateExisting dC1 7 exC1).title = some "new title" ∧
    (updateExisting dC1 7 exC1).updated_at = exC1.updated_at ∧
    (updateExisting dC1 7 exC1).agent_name = exC1.agent_name := by
  obtain ⟨-, hpart, -⟩ :=
    C1_update_strategy dbC1 dC1 "kupatana" 7 "https://kupatana.com/ad/1" exC1 rfl
      (by decide) rfl
  obtain ⟨ht, -, -, hupd, -, -, -, -, -, -, -, -, -, -, -, -, -, -, -, -, -, -, -, -, -,
    hagent, -⟩ := hpart rfl
  exact ⟨ht.1 _ rfl, hupd, hagent⟩

/-- C3: `raw_url` uniquely identifies a row: starting from the empty store,
any sequence of `create_or_update_listing` calls leaves at most one row per
`raw_url`; a call whose `raw_url` matches an existing row updates it in
place (same row count, same keys), and a new row is appended exactly when
no row with that `raw_url` exists. -/
theorem C3_raw_url_unique :
    (∀ (cs : List UpsertCall) (u : String), urlRows (applyUpserts {} cs) u ≤ 1) ∧
    (∀ (db : DB) (d : ScrapeData) (site : String) (now : Nat) (u : String),
      d.raw_url = some u → u ≠ "" →
      (∀ ex, db.listings.find? (fun l => l.raw_url == u) = some ex →
        ∃ db', create_or_update_listing db d site now = .ok db' ∧
          db'.listings.map (fun l => l.raw_url) = db.listings.map (fun l => l.raw_url) ∧
          db'.listings.length = db.listings.length) ∧
      (db.listings.find? (fun l => l.raw_url == u) = none →
        ∃ db', create_or_update_listing db d site now = .ok db' ∧
          db'.listings = db.listings ++ [newListingFrom d u site now])) := by
  constructor
  · intro cs u
    have hnd : (dbUrls (applyUpserts {} cs)).Nodup :=
      applyUpserts_nodup cs {} (by simp [dbUrls])
    have := (List.nodup_iff_count_le_one.mp hnd) u
    simpa [urlRows_eq_count] using this
  · intro db d site now u hurl hne
    have hbu : (u == "") = false := by simpa using hne
    constructor
    · intro ex hfind
      refine ⟨{ listings := replaceFirst (fun l => l.raw_url == u) (updateExisting d now) db.listings
                agents := upsertAgents db d now }, ?_, ?_, ?_⟩
      · simp [create_or_update_listing, hurl, hbu, hfind]
      · exact map_raw_url_replaceFirst _ _ (updateExisting_raw_url d now) db.listings
      · exact length_replaceFirst _ _ db.listings
    · intro hfind
      refine ⟨{ listings := db.listings ++ [newListingFrom d u site now]
                agents := upsertAgents db d now }, ?_, rfl⟩
      simp [create_or_update_listing, hurl, hbu, hfind]

/-- Concrete detail payload used by the C3 witness. -/
def dC3 : ScrapeData :=
  { raw_url := some "https://kupatana.com/ad/9", agent_name := some (some "Bob") }

/-- Witness for C3: inserting into the empty store appends exactly one
fresh row. -/
theorem C3_raw_url_unique_witness :
    (∃ db', create_or_update_listing {} dC3 "kupatana" 1 = .ok db' ∧
      db'.listings = ({} : DB).listings ++ [newListingFrom dC3 "https://kupatana.com/ad/9" "kupatana" 1]) ∧
    urlRows (applyUpserts {} [⟨dC3, "kupatana", 1⟩, ⟨dC3, "kupatana", 2⟩]) "https://kupatana.com/ad/9" ≤ 1 := by
  refine ⟨?_, C3_raw_url_unique.1 [⟨dC3, "kupatana", 1⟩, ⟨dC3, "kupatana", 2⟩] _⟩
  exact (C3_raw_url_unique.2 {} dC3 "kupatana" 1 "https://kupatana.com/ad/9" rfl
    (by decide)).2 rfl

/-- C10: a payload whose `raw_url` is missing, null or empty makes
`create_or_update_listing` raise `ValueError` before any agent or listing
write (the store is unchanged); a payload with a truthy `raw_url` never
trips that precondition check. -/
theorem C10_raw_url_required :
    ∀ (db : DB) (d : ScrapeData) (site : String) (now : Nat),
      ((d.raw_url = none ∨ d.raw_url = some "") →
        create_or_update_listing db d site now =
          .error "raw_url is required in data dictionary" ∧
        applyUpsert db ⟨d, site, now⟩ = db) ∧
      (∀ u, d.raw_url = some u → u ≠ "" →
        ∃ db', create_or_update_listing db d site now = .ok db') := by
  intro db d site now
  constructor
  · rintro (h | h) <;> simp [create_or_update_listing, h, applyUpsert]
  · intro u hurl hne
    have hbu : (u == "") = false := by simpa using hne
    cases hfind : db.listings.find? (fun l => l.raw_url == u) with
    | some ex =>
        exact ⟨{ listings := replaceFirst (fun l => l.raw_url == u) (updateExisting d now) db.listings
                 agents := upsertAgents db d now },
               by simp [create_or_update_listing, hurl, hbu, hfind]⟩
    | none =>
        exact ⟨{ listings := db.listings ++ [newListingFrom d u site now]
                 agents := upsertAgents db d now },
               by simp [create_or_update_listing, hurl, hbu, hfind]⟩

/-- Witness for C10: the empty-string `raw_url` payload is rejected with
the store untouched, and a payload with a real URL is accepted. -/
theorem C10_raw_url_required_witness :
    (create_or_update_listing dbC1 { raw_url := some "" } "kupatana" 0 =
      .error "raw_url is required in data dictionary" ∧
     applyUpsert dbC1 ⟨{ raw_url := some "" }, "kupatana", 0⟩ = dbC1) ∧
    (∃ db', create_or_update_listing dbC1 dC3 "kupatana" 0 = .ok db') := by
  refine ⟨(C10_raw_url_required dbC1 { raw_url := some "" } "kupatana" 0).1 (Or.inr rfl), ?_⟩
  exact (C10_raw_url_required dbC1 dC3 "kupatana" 0).2 "https://kupatana.com/ad/9" rfl
    (by decide)

/-! ## Kupatana basic pagination sweep (`KupatanaService.get_all_listings_basic`) -/

/-- One listing card on an index page.  The CSS field-extraction rules are
abstracted to the extraction contract (the card carries its already
extracted title/price); the link `href` is what the loop logic inspects. -/
structure Card where
  href : Option String := none
  title : Option String := none
  price : Option Int := none
  price_currency : Option String := none
  deriving Repr, DecidableEq

/-- Parsed index page as observed by `get_all_listings_basic`:
`is404Indicator` models the explicit 404 markers checked by
`is_404_page`, `hasProductList` the `search-product-list` container,
`cards` the `product-list__item` elements. -/
structure PageHtml where
  is404Indicator : Bool := false
  hasProductList : Bool := true
  cards : List Card := []
  deriving Repr, DecidableEq

/-- Result of navigating to and parsing one index page (`fetchError` is an
exception escaping into the per-page `except` handler). -/
inductive PageFetch
  | fetchError
  | page (html : PageHtml)
  deriving Repr, DecidableEq

/-- Embedding of `KupatanaService.is_404_page`: explicit 404 markers, or a
`search-product-list` container with zero `product-list__item` children
(the site's empty-results rendering). -/
def is_404_page (h : PageHtml) : Bool :=
  h.is404Indicator || (h.hasProductList && h.cards.isEmpty)

/-- Environment of one basic sweep: the DOM each page number parses to,
the cards found when a page is refreshed after an empty first parse, the
stop flag as observed at each loop iteration, the page cap, and whether a
database session was supplied. -/
structure SweepEnv where
  pages : Nat → PageFetch
  refreshed : Nat → List Card := fun _ => []
  stopFlag : Nat → Bool := fun _ => false
  maxPages : Option Nat := none
  dbEnabled : Bool := true

/-- Basic listing record assembled from one card
(`raw_url`, `title`, `price`, `price_currency`, `source`). -/
structure BasicListing where
  raw_url : String
  title : Option String := none
  price : Option Int := none
  price_currency : Option String := none
  source : String := "kupatana"
  deriving Repr, DecidableEq

/-- Loop state of `get_all_listings_basic`: the page counter, the two
consecutive-miss counters, the run-scoped seen set, the accumulated
listings, the status-dict counters, plus two pure observations (the
raw_urls passed to `create_or_update_listing` and a per-page trace of how
many new listings each processed page produced). -/
structure SweepState where
  pageNum : Nat := 1
  consecutive404 : Nat := 0
  consecutiveNoNew : Nat := 0
  seenUrls : List String := []
  allListings : List BasicListing := []
  savedUrls : List String := []
  totalSaved : Nat := 0
  iter : Nat := 0
  currentPage : Nat := 0
  pagesScraped : Nat := 0
  listingsFound : Nat := 0
  pageTrace : List (Nat × Nat) := []
  deriving Repr, DecidableEq

/-- Why the sweep loop ended. -/
inductive SweepStop
  | stopFlagged
  | maxPagesReached
  | twoConsecutive404
  | twoConsecutiveNoNew
  | safetyLimit
  deriving Repr, DecidableEq

/-- Base URL of the Kupatana scraper. -/
def kupatanaBaseUrl : String := "https://kupatana.com"


/-- Python `s.startswith(pre)` on strings, written over the character
lists so that it evaluates inside the kernel. -/
def pyStartsWith (s pre : String) : Bool :=
  s.data.take pre.data.length == pre.data

/-- Embedding of the per-card loop of `get_all_listings_basic`: skip cards
without a link, build the full URL (`urljoin` for relative links), and
keep the card only when its URL was not seen earlier in the run, adding it
to the seen set.  Returns the page's new listings and the updated seen
set. -/
def processCards : List Card → List String → List BasicListing × List String
  | [], seen => ([], seen)
  | c :: rest, seen =>
    match c.href with
    | none => processCards rest seen
    | some href =>
      if href == "" then processCards rest seen
      else
        if (if pyStartsWith href "http" then href else kupatanaBaseUrl ++ href) ∈ seen then
          processCards rest seen
        else
          ({ raw_url := if pyStartsWith href "http" then href else kupatanaBaseUrl ++ href
             title := c.title
             price := c.price
             price_currency := c.price_currency } ::
            (processCards rest
              (seen ++ [if pyStartsWith href "http" then href else kupatanaBaseUrl ++ href])).1,
           (processCards rest
             (seen ++ [if pyStartsWith href "http" then href else kupatanaBaseUrl ++ href])).2)

/-- Python `if max_pages and page_num > max_pages` (a cap of 0 is falsy). -/
def maxPagesExceeded (mp : Option Nat) (pageNum : Nat) : Bool :=
  match mp with
  | some m => decide (0 < m) && decide (m < pageNum)
  | none => false

/-- The cards the page yields for extraction: the first parse's cards, or
the cards found after the refresh retry when the first parse had none. -/
def effectiveCards (env : SweepEnv) (pageNum : Nat) (h : PageHtml) : List Card :=
  if h.cards.isEmpty then env.refreshed pageNum else h.cards

/-- Carry-over rule of `get_all_listings_basic`: page 1 processes all its
cards; later pages drop their first 8 cards (known duplicates) and yield
nothing (`none`) when they have at most 8 cards. -/
def cardsAfterSkip (pageNum : Nat) (cards : List Card) : Option (List Card) :=
  if pageNum == 1 then some cards
  else if 8 < cards.length then some (cards.drop 8) else none

/-- Result of one iteration of the pagination loop. -/
inductive SweepStepResult
  | next (s : SweepState)
  | halt (reason : SweepStop) (s : SweepState)
  deriving Repr, DecidableEq

/-- One iteration of the `while True` pagination loop of
`get_all_listings_basic`, in the source's order: stop-flag check, page
cap check, fetch (an exception advances a page under the 1000-page safety
limit), the 404/empty-results check feeding `consecutive_404_count` (two
consecutive hits break the loop, one is tolerated), the refresh retry for
pages with no cards (which skips the page without touching any counter
when still empty), the skip-8 carry-over rule, per-card dedup against the
run's seen set, the `consecutive_no_new_count` check, and the immediate
per-page save (recorded in `savedUrls` when a session was supplied).  The
source's `consecutive_404_count = 0` reset on a valid page and the
`c = count + 1` increments are inlined into the successor states. -/
def sweepStep (env : SweepEnv) (s : SweepState) : SweepStepResult :=
  if env.stopFlag s.iter then .halt .stopFlagged s
  else if maxPagesExceeded env.maxPages s.pageNum then .halt .maxPagesReached s
  else
    match env.pages s.pageNum with
    | .fetchError =>
        if 1000 < s.pageNum + 1 then .halt .safetyLimit { s with pageNum := s.pageNum + 1 }
        else .next { s with pageNum := s.pageNum + 1 }
    | .page h =>
        if is_404_page h then
          if 2 ≤ s.consecutive404 + 1 then
            .halt .twoConsecutive404 { s with consecutive404 := s.consecutive404 + 1 }
          else
            .next { s with
                    consecutive404 := s.consecutive404 + 1
                    pageNum := s.pageNum + 1 }
        else if (effectiveCards env s.pageNum h).isEmpty then
          .next { s with
                  consecutive404 := 0
                  pageNum := s.pageNum + 1 }
        else
          match cardsAfterSkip s.pageNum (effectiveCards env s.pageNum h) with
          | none =>
              if 2 ≤ s.consecutiveNoNew + 1 then
                .halt .twoConsecutiveNoNew { s with
                  consecutive404 := 0
                  consecutiveNoNew := s.consecutiveNoNew + 1 }
              else
                .next { s with
                        consecutive404 := 0
                        consecutiveNoNew := s.consecutiveNoNew + 1
                        pageNum := s.pageNum + 1 }
          | some toProcess =>
              if (processCards toProcess s.seenUrls).1.length == 0 then
                if 2 ≤ s.consecutiveNoNew + 1 then
                  .halt .twoConsecutiveNoNew { s with
                    consecutive404 := 0
                    seenUrls := (processCards toProcess s.seenUrls).2
                    consecutiveNoNew := s.consecutiveNoNew + 1 }
                else
                  .next { s with
                          consecutive404 := 0
                          seenUrls := (processCards toProcess s.seenUrls).2
                          consecutiveNoNew := s.consecutiveNoNew + 1
                          pageTrace := s.pageTrace ++ [(s.pageNum, 0)]
                          pageNum := s.pageNum + 1 }
              else
                .next { s with
                        consecutive404 := 0
                        seenUrls := (processCards toProcess s.seenUrls).2
                        consecutiveNoNew := 0
                        allListings := s.allListings ++ (processCards toProcess s.seenUrls).1
                        currentPage := s.pageNum
                        pagesScraped := s.pageNum
                        listingsFound := (s.allListings ++ (processCards toProcess s.seenUrls).1).length
                        savedUrls := if env.dbEnabled then
                            s.savedUrls ++ (processCards toProcess s.seenUrls).1.map (fun l => l.raw_url)
                          else s.savedUrls
                        totalSaved := if env.dbEnabled then
                            s.totalSaved + (processCards toProcess s.seenUrls).1.length
                          else s.totalSaved
                        pageTrace := s.pageTrace ++ [(s.pageNum, (processCards toProcess s.seenUrls).1.length)]
                        pageNum := s.pageNum + 1 }

/-- Outcome of running the pagination loop with the given fuel. -/
inductive SweepOutcome
  | finished (reason : SweepStop) (s : SweepState)
  | fuelOut (s : SweepState)
  deriving Repr, DecidableEq

/-- Run the pagination loop for at most `fuel` iterations. -/
def sweepRun (env : SweepEnv) : Nat → SweepState → SweepOutcome
  | 0, s => .fuelOut s
  | fuel + 1, s =>
    match sweepStep env s with
    | .halt r s' => .finished r s'
    | .next s' => sweepRun env fuel { s' with iter := s'.iter + 1 }

/-- Final loop state of a sweep outcome. -/
def sweepOutState : SweepOutcome → SweepState
  | .finished _ s => s
  | .fuelOut s => s

/-- Whether the loop ended by itself within the fuel bound. -/
def sweepFinished : SweepOutcome → Bool
  | .finished _ _ => true
  | .fuelOut _ => false

/-- Why the loop ended, when it did. -/
def sweepReason : SweepOutcome → Option SweepStop
  | .finished r _ => some r
  | .fuelOut _ => none

/-- State carried by a step result (the loop state whether the iteration
continued or broke). -/
def stepState : SweepStepResult → SweepState
  | .next s => s
  | .halt _ s => s

/-- Concrete index card holding only a link. -/
def mkCard (u : String) : Card := { href := some u }

/-- The site's empty-results rendering: the `search-product-list`
container is present but holds zero listing cards. -/
def emptyResultsPage : PageHtml :=
  { is404Indicator := false, hasProductList := true, cards := [] }

/-- Page stream for the C2 scenario `[listings, empty, listings, empty,
empty]`: listing cards on pages 1 and 3 (page 3 starts with the usual 8
carried-over duplicate cards), the empty-results page everywhere else; no
page cap, no stop request, a database session supplied. -/
def envC2 : SweepEnv :=
  { pages := fun n =>
      if n == 1 then
        .page { cards := [mkCard "http://k/a1", mkCard "http://k/a2", mkCard "http://k/a3"] }
      else if n == 3 then
        .page { cards := [mkCard "http://k/x1", mkCard "http://k/x2", mkCard "http://k/x3",
          mkCard "http://k/x4", mkCard "http://k/x5", mkCard "http://k/x6", mkCard "http://k/x7",
          mkCard "http://k/x8", mkCard "http://k/b1", mkCard "http://k/b2"] }
      else .page emptyResultsPage }

/-- C2: with no page cap, a page rendering zero listings (the
empty-results page, which `is_404_page` classifies as the negative
signal) is tolerated once and the sweep continues; on the page stream
`[listings, empty, listings, empty, empty]` the loop runs past the single
empty page 2, processes page 3, and stops with the consecutive-404
counter at the second consecutive empty page (page 5), having scraped
exactly 2 pages that produced listings. -/
theorem C2_two_consecutive_empty_stop :
    is_404_page emptyResultsPage = true ∧
    sweepReason (sweepRun envC2 10 {}) = some .twoConsecutive404 ∧
    (sweepOutState (sweepRun envC2 10 {})).pageNum = 5 ∧
    (sweepOutState (sweepRun envC2 10 {})).pageTrace = [(1, 3), (3, 2)] ∧
    ((sweepOutState (sweepRun envC2 10 {})).pageTrace.filter (fun pr => decide (0 < pr.2))).length = 2 ∧
    (sweepOutState (sweepRun envC2 10 {})).allListings.map (fun l => l.raw_url) =
      ["http://k/a1", "http://k/a2", "http://k/a3", "http://k/b1", "http://k/b2"] := by
  decide

theorem processCards_seen (cs : List Card) (seen : List String) :
    (processCards cs seen).2 = seen ++ (processCards cs seen).1.map (fun l => l.raw_url) := by
  induction cs generalizing seen with
  | nil => simp [processCards]
  | cons c rest ih =>
    cases hh : c.href with
    | none => simpa [processCards, hh] using ih seen
    | some href =>
      by_cases he : href = ""
      · simpa [processCards, hh, he] using ih seen
      · by_cases hm : (if pyStartsWith href "http" then href else kupatanaBaseUrl ++ href) ∈ seen
        · simpa [processCards, hh, he, hm] using ih seen
        · have := ih (seen ++ [if pyStartsWith href "http" then href else kupatanaBaseUrl ++ href])
          simp [processCards, hh, he, hm, this]

theorem processCards_nodup (cs : List Card) (seen : List String) :
    ((processCards cs seen).1.map (fun l => l.raw_url)).Nodup ∧
    ∀ u ∈ (processCards cs seen).1.map (fun l => l.raw_url), u ∉ seen := by
  induction cs generalizing seen with
  | nil => simp [processCards]
  | cons c rest ih =>
    cases hh : c.href with
    | none => simpa [processCards, hh] using ih seen
    | some href =>
      by_cases he : href = ""
      · simpa [processCards, hh, he] using ih seen
      · by_cases hm : (if pyStartsWith href "http" then href else kupatanaBaseUrl ++ href) ∈ seen
        · simpa [processCards, hh, he, hm] using ih seen
        · obtain ⟨ihn, ihs⟩ :=
            ih (seen ++ [if pyStartsWith href "http" then href else kupatanaBaseUrl ++ href])
          have hstep : processCards (c :: rest) seen =
              ({ raw_url := if pyStartsWith href "http" then href else kupatanaBaseUrl ++ href
                 title := c.title
                 price := c.price
                 price_currency := c.price_currency } ::
                (processCards rest
                  (seen ++ [if pyStartsWith href "http" then href else kupatanaBaseUrl ++ href])).1,
               (processCards rest
                 (seen ++ [if pyStartsWith href "http" then href else kupatanaBaseUrl ++ href])).2) := by
            simp [processCards, hh, he, hm]
          rw [hstep]
          constructor
          · simp only [List.map_cons]
            refine List.nodup_cons.mpr ⟨?_, ihn⟩
            intro hmem
            exact (ihs _ hmem) (by simp)
          · intro u hu
            simp only [List.map_cons, List.mem_cons] at hu
            rcases hu with rfl | hu
            · exact hm
            · intro hus
              exact (ihs u hu) (List.mem_append_left _ hus)

/-- Run-scoped deduplication invariant of the sweep loop state: every
accumulated URL is in the seen set, the accumulated URLs are pairwise
distinct, and so are the URLs passed to the persistence layer. -/
def SweepInv (s : SweepState) : Prop :=
  (∀ u ∈ s.allListings.map (fun l => l.raw_url), u ∈ s.seenUrls) ∧
  (s.allListings.map (fun l => l.raw_url)).Nodup ∧
  s.savedUrls.Nodup ∧
  (∀ u ∈ s.savedUrls, u ∈ s.seenUrls)

theorem sweepStep_inv (env : SweepEnv) (s : SweepState) (h : SweepInv s) :
    SweepInv (stepState (sweepStep env s)) := by
  obtain ⟨hsub, hnd, hsnd, hssub⟩ := h
  unfold sweepStep
  split
  · exact ⟨hsub, hnd, hsnd, hssub⟩
  · split
    · exact ⟨hsub, hnd, hsnd, hssub⟩
    · split
      · -- navigation/parse exception branch
        split <;> exact ⟨hsub, hnd, hsnd, hssub⟩
      · -- parsed page branch
        split
        · -- 404 / empty-results page
          split <;> exact ⟨hsub, hnd, hsnd, hssub⟩
        · split
          · -- still no cards after the refresh retry
            exact ⟨hsub, hnd, hsnd, hssub⟩
          · split
            · -- later page with at most 8 cards (all carried-over duplicates)
              split <;> exact ⟨hsub, hnd, hsnd, hssub⟩
            · -- cards processed against the seen set
              next toProcess hsome =>
                obtain ⟨hpn, hps⟩ := processCards_nodup toProcess s.seenUrls
                have hseen := processCards_seen toProcess s.seenUrls
                split
                · -- no new listings: the seen set is unchanged
                  next hlen =>
                    have hz : (processCards toProcess s.seenUrls).1 = [] :=
                      List.length_eq_zero.mp (by simpa using hlen)
                    have hsame : (processCards toProcess s.seenUrls).2 = s.seenUrls := by
                      rw [hseen, hz]
                      simp
                    split
                    · refine ⟨?_, hnd, hsnd, ?_⟩
                      · show ∀ u ∈ s.allListings.map (fun l => l.raw_url),
                          u ∈ (processCards toProcess s.seenUrls).2
                        rw [hsame]
                        exact hsub
                      · show ∀ u ∈ s.savedUrls, u ∈ (processCards toProcess s.seenUrls).2
                        rw [hsame]
                        exact hssub
                    · refine ⟨?_, hnd, hsnd, ?_⟩
                      · show ∀ u ∈ s.allListings.map (fun l => l.raw_url),
                          u ∈ (processCards toProcess s.seenUrls).2
                        rw [hsame]
                        exact hsub
                      · show ∀ u ∈ s.savedUrls, u ∈ (processCards toProcess s.seenUrls).2
                        rw [hsame]
                        exact hssub
                · -- new listings: appended to results and to the save trace
                  refine ⟨?_, ?_, ?_, ?_⟩
                  · show ∀ u ∈ (s.allListings ++ (processCards toProcess s.seenUrls).1).map
                        (fun l => l.raw_url), u ∈ (processCards toProcess s.seenUrls).2
                    intro u hu
                    rw [hseen]
                    simp only [List.map_append, List.mem_append] at hu
                    rcases hu with hu | hu
                    · exact List.mem_append_left _ (hsub u hu)
                    · exact List.mem_append_right _ hu
                  · show ((s.allListings ++ (processCards toProcess s.seenUrls).1).map
                        (fun l => l.raw_url)).Nodup
                    simp only [List.map_append]
                    refine List.Nodup.append hnd hpn ?_
                    intro a ha hb
                    exact (hps a hb) (hsub a ha)
                  · show (if env.dbEnabled then
                        s.savedUrls ++ (processCards toProcess s.seenUrls).1.map (fun l => l.raw_url)
                      else s.savedUrls).Nodup
                    by_cases hdb : env.dbEnabled
                    · simp only [hdb, if_true]
                      refine List.Nodup.append hsnd hpn ?_
                      intro a ha hb
                      exact (hps a hb) (hssub a ha)
                    · simpa [hdb] using hsnd
                  · show ∀ u ∈ (if env.dbEnabled then
                        s.savedUrls ++ (processCards toProcess s.seenUrls).1.map (fun l => l.raw_url)
                      else s.savedUrls), u ∈ (processCards toProcess s.seenUrls).2
                    intro u hu
                    rw [hseen]
                    by_cases hdb : env.dbEnabled
                    · simp only [hdb, if_true, List.mem_append] at hu
                      rcases hu with hu | hu
                      · exact List.mem_append_left _ (hssub u hu)
                      · exact List.mem_append_right _ hu
                    · simp only [hdb, if_false] at hu
                      exact List.mem_append_left _ (hssub u hu)

theorem sweepRun_inv (env : SweepEnv) (fuel : Nat) (s : SweepState) (h : SweepInv s) :
    SweepInv (sweepOutState (sweepRun env fuel s)) := by
  induction fuel generalizing s with
  | zero => exact h
  | succ fuel ih =>
    have hstep := sweepStep_inv env s h
    unfold sweepRun
    cases hr : sweepStep env s with
    | halt r s' =>
        have heq : stepState (sweepStep env s) = s' := by rw [hr]; rfl
        rw [heq] at hstep
        exact hstep
    | next s' =>
        have heq : stepState (sweepStep env s) = s' := by rw [hr]; rfl
        rw [heq] at hstep
        exact ih { s' with iter := s'.iter + 1 } hstep

/-- C7: in every basic sweep (any page stream, any refresh behaviour, any
stop-flag timing, any page cap), each distinct URL appears at most once in
the accumulated result list and is passed to `create_or_update_listing`
at most once per run. -/
theorem C7_run_scoped_dedup (env : SweepEnv) (fuel : Nat) :
    ((sweepOutState (sweepRun env fuel {})).allListings.map (fun l => l.raw_url)).Nodup ∧
    (sweepOutState (sweepRun env fuel {})).savedUrls.Nodup := by
  have h := sweepRun_inv env fuel {} (by refine ⟨?_, ?_, ?_, ?_⟩ <;> simp)
  exact ⟨h.2.1, h.2.2.1⟩

/-! ## Detail extraction (`KupatanaService.extract_detailed_data`) -/

/-- Environment of one detail extraction: the stop flag as observed at the
three checkpoints (before navigation, after page load, after the initial
parse), and the outcomes of navigation, parsing and field extraction,
where an `Except.error` is an exception raised by that step. -/
structure DetailEnv where
  stopBeforeNav : Bool := false
  stopAfterLoad : Bool := false
  stopAfterParse : Bool := false
  nav : Except String Unit := .ok ()
  parse : Except String Unit := .ok ()
  extract : Except String ScrapeData := .ok {}
  dbEnabled : Bool := false

/-- Externally observable actions of one detail extraction. -/
inductive DetAction
  | navigate
  | parsePage
  | extractFields
  | saveListing
  deriving Repr, DecidableEq

/-- Result dictionary of `extract_detailed_data`: either the extracted
record, or the error-marker dictionary
`{'raw_url': url, 'error': msg, 'scraped_at': now}`. -/
inductive DetResult
  | okRec (d : ScrapeData)
  | errMarker (raw_url : String) (error : String) (scraped_at : Nat)
  deriving Repr, DecidableEq

/-- Embedding of `KupatanaService.extract_detailed_data`: the stop flag is
checked before navigation, after page load and after the initial parse,
and observing it returns the `'Scraping was stopped'` marker without any
further work; every exception from navigation, parsing or field
extraction is caught by the enclosing handler and turned into an
error-marker dictionary carrying the url; on success the record is saved
when a session was supplied (a save failure is swallowed by its own
handler).  Returns the result dictionary and the trace of performed
actions. -/
def extract_detailed_data (env : DetailEnv) (url : String) (now : Nat) :
    DetResult × List DetAction :=
  if env.stopBeforeNav then (.errMarker url "Scraping was stopped" now, [])
  else
    match env.nav with
    | .error e => (.errMarker url e now, [.navigate])
    | .ok _ =>
      if env.stopAfterLoad then (.errMarker url "Scraping was stopped" now, [.navigate])
      else
        match env.parse with
        | .error e => (.errMarker url e now, [.navigate, .parsePage])
        | .ok _ =>
          if env.stopAfterParse then
            (.errMarker url "Scraping was stopped" now, [.navigate, .parsePage])
          else
            match env.extract with
            | .error e => (.errMarker url e now, [.navigate, .parsePage, .extractFields])
            | .ok d =>
              if env.dbEnabled then
                (.okRec d, [.navigate, .parsePage, .extractFields, .saveListing])
              else (.okRec d, [.navigate, .parsePage, .extractFields])

/-- C5: `extract_detailed_data` never raises: for every environment it
returns either the extracted record or an error-marker dictionary that
carries the url; when the cancellation flag is observed at any of the
three checkpoints it returns the stop marker without performing the
subsequent actions; any navigation, parse or extraction failure likewise
yields an error marker instead of propagating, so a caller iterating many
URLs can continue past individual failures. -/
theorem C5_extract_never_raises (env : DetailEnv) (url : String) (now : Nat) :
    ((∃ d, (extract_detailed_data env url now).1 = .okRec d) ∨
     (∃ e, (extract_detailed_data env url now).1 = .errMarker url e now)) ∧
    (env.stopBeforeNav = true →
      extract_detailed_data env url now = (.errMarker url "Scraping was stopped" now, [])) ∧
    (env.stopBeforeNav = false → env.nav = .ok () → env.stopAfterLoad = true →
      extract_detailed_data env url now =
        (.errMarker url "Scraping was stopped" now, [.navigate])) ∧
    (env.stopBeforeNav = false → env.nav = .ok () → env.stopAfterLoad = false →
      env.parse = .ok () → env.stopAfterParse = true →
      extract_detailed_data env url now =
        (.errMarker url "Scraping was stopped" now, [.navigate, .parsePage])) ∧
    (∀ e, env.stopBeforeNav = false → env.nav = .ok () → env.stopAfterLoad = false →
      env.parse = .ok () → env.stopAfterParse = false → env.extract = .error e →
      (extract_detailed_data env url now).1 = .errMarker url e now) := by
  obtain ⟨s1, s2, s3, nav, parse, ext, dbe⟩ := env
  cases s1 <;> cases s2 <;> cases s3 <;> cases nav <;> cases parse <;> cases ext <;>
    cases dbe <;> simp [extract_detailed_data]

/-- Environment in which the stop flag is already set before navigation. -/
def envC5 : DetailEnv := { stopBeforeNav := true }

/-- Witness for C5: with the flag set at the first checkpoint, the stop
marker is returned and nothing else happens. -/
theorem C5_extract_never_raises_witness :
    extract_detailed_data envC5 "http://k/a1" 5 =
      (.errMarker "http://k/a1" "Scraping was stopped" 5, []) :=
  (C5_extract_never_raises envC5 "http://k/a1" 5).2.1 rfl

/-! ## Detail sweep task (`BaseScraperService._scrape_detailed_listings_task`) -/

/-- Outcome of `extract_detailed_data` for one URL of the sweep, as seen
by the task loop: a successful record, an error marker for a failed
extraction, the `'Scraping was stopped'` marker, or an exception escaping
`extract_detailed_data` itself (caught by the task's per-URL handler). -/
inductive ExtractOutcome
  | okRec
  | errMarker
  | stopMarker
  | raised
  deriving Repr, DecidableEq

/-- Environment of one detail sweep: the extraction outcome at each
1-based URL index, and the first loop check at which the stop flag reads
true (`none` when no stop request arrives; the flag is monotone, since
`stop_scraping` only sets it and the task clears it only when
finalizing). -/
structure DetailsEnv where
  outcomes : Nat → ExtractOutcome
  stopAt : Option Nat := none

/-- Value of `should_stop` at the `i`-th check of the run. -/
def flagAt (env : DetailsEnv) (i : Nat) : Bool :=
  match env.stopAt with
  | some k => decide (k ≤ i)
  | none => false

/-- Status fields tracked by the detail sweep task. -/
structure DetailsState where
  status : String := "scraping"
  urlsScraped : Nat := 0
  totalUrls : Nat := 0
  currentUrl : Option String := none
  currentPage : Nat := 0
  isScraping : Bool := true
  shouldStop : Bool := false
  extractedUrls : List String := []
  deriving Repr, DecidableEq

/-- Embedding of `_init_details_status`: status `'scraping'`, counters
reset, flags set for a fresh run. -/
def init_details_status (urls : List String) : DetailsState :=
  { status := "scraping"
    urlsScraped := 0
    totalUrls := urls.length
    currentUrl := none
    isScraping := true
    shouldStop := false
    extractedUrls := [] }

/-- Embedding of `BaseScraperService._finalize_status`: clear the
scraping flags, set the terminal status from the observed `should_stop`
value (`'stopped'` when it was set, `'completed'` otherwise), reset the
page counter. -/
def finalize_status (wasStopped : Bool) (s : DetailsState) : DetailsState :=
  { s with
    isScraping := false
    shouldStop := false
    status := if wasStopped then "stopped" else "completed"
    currentPage := 0 }

/-- The `for index, url in enumerate(urls, 1)` loop of
`_scrape_detailed_listings_task`: each iteration first checks the stop
flag (breaking with status `'stopped'`), then runs
`extract_detailed_data` (recorded in `extractedUrls`) and updates
progress to the current index; a returned stop marker breaks with status
`'stopped'`, while error markers, successful records and exceptions all
advance to the next URL with the same progress update.  Returns the state
together with the index of the check at which the loop exited. -/
def detailsLoop (env : DetailsEnv) : List String → Nat → DetailsState → DetailsState × Nat
  | [], i, s => (s, i)
  | url :: rest, i, s =>
    if flagAt env i then ({ s with status := "stopped" }, i)
    else
      match env.outcomes i with
      | .stopMarker =>
          ({ s with
             urlsScraped := i
             currentUrl := none
             extractedUrls := s.extractedUrls ++ [url]
             status := "stopped" }, i)
      | _ =>
          detailsLoop env rest (i + 1)
            { s with
              urlsScraped := i
              currentUrl := none
              extractedUrls := s.extractedUrls ++ [url] }

/-- Embedding of `_scrape_detailed_listings_task`: initialise the details
status, run the loop over the URLs, then finalize with the `should_stop`
value observed after the loop exits. -/
def scrape_detailed_listings_task (env : DetailsEnv) (urls : List String) : DetailsState :=
  finalize_status
    (flagAt env (detailsLoop env urls 1 (init_details_status urls)).2)
    (detailsLoop env urls 1 (init_details_status urls)).1

theorem detailsLoop_stopped (env : DetailsEnv) (K : Nat) (hK : env.stopAt = some K)
    (hnm : ∀ i, i < K → env.outcomes i ≠ .stopMarker) :
    ∀ (l : List String) (i : Nat) (s : DetailsState), i ≤ K → K < i + l.length →
      (detailsLoop env l i s).2 = K ∧
      (detailsLoop env l i s).1.status = "stopped" ∧
      (detailsLoop env l i s).1.urlsScraped = (if i = K then s.urlsScraped else K - 1) ∧
      (detailsLoop env l i s).1.extractedUrls = s.extractedUrls ++ l.take (K - i) := by
  intro l
  induction l with
  | nil =>
    intro i s hi hl
    simp only [List.length_nil] at hl
    omega
  | cons url rest ih =>
    intro i s hi hl
    by_cases hik : i = K
    · subst hik
      have hflag : flagAt env i = true := by simp [flagAt, hK]
      simp [detailsLoop, hflag]
    · have hlt : i < K := lt_of_le_of_ne hi hik
      have hflag : flagAt env i = false := by
        simp only [flagAt, hK, decide_eq_false_iff_not]
        omega
      have hne := hnm i hlt
      have hK1 : i + 1 ≤ K := hlt
      have hK2 : K < (i + 1) + rest.length := by
        simp only [List.length_cons] at hl
        omega
      cases ho : env.outcomes i
      all_goals try exact absurd ho hne
      all_goals
        obtain ⟨h2, hst, hus, hex⟩ := ih (i + 1)
          { s with
            urlsScraped := i
            currentUrl := none
            extractedUrls := s.extractedUrls ++ [url] } hK1 hK2
        have hres : detailsLoop env (url :: rest) i s =
            detailsLoop env rest (i + 1)
              { s with
                urlsScraped := i
                currentUrl := none
                extractedUrls := s.extractedUrls ++ [url] } := by
          simp [detailsLoop, hflag, ho]
        rw [hres]
        refine ⟨h2, hst, ?_, ?_⟩
        · rw [hus]
          by_cases hik1 : i + 1 = K
          · rw [if_pos hik1, if_neg hik]
            show i = K - 1
            omega
          · rw [if_neg hik1, if_neg hik]
        · rw [hex]
          have hKi : K - i = (K - (i + 1)) + 1 := by omega
          rw [hKi, List.take_succ_cons]
          simp

/-- C6: once the stop flag is observed at a loop check of the detail
sweep (at iteration `K`, within the URL list), no further URL is
processed — `extract_detailed_data` ran on exactly the first `K - 1`
URLs — the final status is `'stopped'` (not `'completed'`, not
`'error'`), and `urls_scraped` equals `K - 1`, the number of URLs
processed before the flag was observed. -/
theorem C6_stop_flag_halts_detail_sweep (env : DetailsEnv) (urls : List String) (K : Nat)
    (hK : env.stopAt = some K) (h1 : 1 ≤ K) (h2 : K ≤ urls.length)
    (hnm : ∀ i, i < K → env.outcomes i ≠ .stopMarker) :
    (scrape_detailed_listings_task env urls).status = "stopped" ∧
    (scrape_detailed_listings_task env urls).urlsScraped = K - 1 ∧
    (scrape_detailed_listings_task env urls).extractedUrls = urls.take (K - 1) ∧
    (scrape_detailed_listings_task env urls).status ≠ "completed" ∧
    (scrape_detailed_listings_task env urls).status ≠ "error" := by
  obtain ⟨hL2, hLst, hLus, hLex⟩ :=
    detailsLoop_stopped env K hK hnm urls 1 (init_details_status urls) h1 (by omega)
  have hflagK : flagAt env (detailsLoop env urls 1 (init_details_status urls)).2 = true := by
    rw [hL2]
    simp [flagAt, hK]
  have hus : (if 1 = K then (init_details_status urls).urlsScraped else K - 1) = K - 1 := by
    by_cases h1K : 1 = K
    · rw [if_pos h1K]
      show 0 = K - 1
      omega
    · rw [if_neg h1K]
  have hinit : (init_details_status urls).extractedUrls = [] := rfl
  refine ⟨?_, ?_, ?_, ?_, ?_⟩ <;>
    simp [scrape_detailed_listings_task, finalize_status, hflagK, hLst, hLus, hLex, hus, hinit]

/-- Environment for the C6 witness: every extraction succeeds and the
stop flag is first observed at the loop check of iteration 2. -/
def envC6 : DetailsEnv := { outcomes := fun _ => .okRec, stopAt := some 2 }

/-- Witness for C6: over three URLs with the flag observed at iteration
2, exactly one URL was processed, `urls_scraped` is 1 and the final
status is `'stopped'`. -/
theorem C6_stop_flag_halts_detail_sweep_witness :
    (scrape_detailed_listings_task envC6 ["u1", "u2", "u3"]).status = "stopped" ∧
    (scrape_detailed_listings_task envC6 ["u1", "u2", "u3"]).urlsScraped = 1 ∧
    (scrape_detailed_listings_task envC6 ["u1", "u2", "u3"]).extractedUrls = ["u1"] := by
  have h := C6_stop_flag_halts_detail_sweep envC6 ["u1", "u2", "u3"] 2 rfl (by decide)
    (by decide) (fun i _ => by simp [envC6])
  exact ⟨h.1, by simpa using h.2.1, by simpa using h.2.2.1⟩

/-! ## Fill-missing-details (`_scrape_all_details_task`) -/

/-- Modelled from the spec: the current `RealEstateListing.to_dict`
serialization is missing from the repository snapshot — the checked-in
`app/models/real_estate.py` is a stale schema (keyed `url`, without
`raw_url`/`agent_name` columns) that none of the services use, while every
service reads lightweight dictionaries keyed `rawUrl` and `agentName`.
Per the spec's data model and its fill-missing-details operation, the
lightweight dictionary carries the listing's `rawUrl`, its display fields
and its agent contact `agentName`. -/
structure LightListing where
  rawUrl : Option String := none
  title : Option String := none
  price : Option Int := none
  price_currency : Option String := none
  agentName : Option String := none
  deriving Repr, DecidableEq

/-- Modelled from the spec: lightweight serialization of one stored row. -/
def to_dict_lightweight (l : Listing) : LightListing :=
  { rawUrl := some l.raw_url
    title := l.title
    price := l.price
    price_currency := l.price_currency
    agentName := l.agent_name }

/-- Sort key for `order_by(created_at.desc())` (null timestamps lowest). -/
def createdKey (l : Listing) : Nat := l.created_at.getD 0

/-- Insert a row into a list sorted newest-first. -/
def insertByCreatedDesc (x : Listing) : List Listing → List Listing
  | [] => [x]
  | y :: ys =>
    if createdKey y ≤ createdKey x then x :: y :: ys
    else y :: insertByCreatedDesc x ys

/-- Rows sorted newest-first (`order_by(created_at.desc())`). -/
def orderByCreatedDesc : List Listing → List Listing
  | [] => []
  | x :: xs => insertByCreatedDesc x (orderByCreatedDesc xs)

/-- Embedding of `DatabaseService.get_all_listings(lightweight=True,
target_site=site)`: the site's rows, newest first, as lightweight
dictionaries. -/
def get_all_listings_lightweight (db : DB) (site : String) : List LightListing :=
  (orderByCreatedDesc (db.listings.filter (fun l => l.source == some site))).map
    to_dict_lightweight

/-- `listing.get('agentName') is not None and listing.get('agentName') != ''`. -/
def has_details (l : LightListing) : Bool :=
  l.agentName.isSome && !(l.agentName == some "")

/-- The partition loop of `_scrape_all_details_task`: listings without a
`rawUrl` key are skipped; the remaining raw urls are split into those
missing agent contact and those already having it. -/
def partitionByDetails : List LightListing → List String × List String
  | [] => ([], [])
  | l :: rest =>
    match l.rawUrl with
    | none => partitionByDetails rest
    | some u =>
      if has_details l then
        ((partitionByDetails rest).1, u :: (partitionByDetails rest).2)
      else
        (u :: (partitionByDetails rest).1, (partitionByDetails rest).2)

/-- Embedding of `_scrape_all_details_task`: read all persisted listings
for the site, partition them, and hand
`listings_without_details + listings_with_details` to the detail sweep;
`none` models the early returns (no listings in the store for the site,
or no valid URLs among them), where no sweep runs. -/
def scrape_all_details_urls (db : DB) (site : String) : Option (List String) :=
  if (get_all_listings_lightweight db site).isEmpty then none
  else if ((partitionByDetails (get_all_listings_lightweight db site)).1 ++
      (partitionByDetails (get_all_listings_lightweight db site)).2).isEmpty then none
  else
    some ((partitionByDetails (get_all_listings_lightweight db site)).1 ++
      (partitionByDetails (get_all_listings_lightweight db site)).2)

/-- Spec-side description of the first half of the partition: the raw
urls of the listings lacking agent contact, in list order. -/
def specMissingUrls (ls : List LightListing) : List String :=
  (ls.filter (fun l => l.rawUrl.isSome && !(has_details l))).filterMap (fun l => l.rawUrl)

/-- Spec-side description of the second half of the partition: the raw
urls of the listings that already have agent contact, in list order. -/
def specHasUrls (ls : List LightListing) : List String :=
  (ls.filter (fun l => l.rawUrl.isSome && has_details l)).filterMap (fun l => l.rawUrl)

theorem partitionByDetails_eq (ls : List LightListing) :
    partitionByDetails ls = (specMissingUrls ls, specHasUrls ls) := by
  induction ls with
  | nil => rfl
  | cons l rest ih =>
    cases hu : l.rawUrl with
    | none =>
        simp [partitionByDetails, hu, specMissingUrls, specHasUrls, List.filter_cons, ih]
    | some u =>
        by_cases hd : has_details l = true <;>
          simp [partitionByDetails, hu, hd, specMissingUrls, specHasUrls, List.filter_cons,
            List.filterMap_cons, ih]

/-- C8: whenever the fill-missing-details task hands a URL list to the
detail sweep, that list is exactly the site's persisted listings lacking
agent contact (`agentName` null or empty) followed by those having it, so
every listing missing agent contact precedes every listing that has it. -/
theorem C8_missing_details_first (db : DB) (site : String) :
    ∀ urls, scrape_all_details_urls db site = some urls →
      urls = specMissingUrls (get_all_listings_lightweight db site) ++
             specHasUrls (get_all_listings_lightweight db site) ∧
      (∀ u, u ∈ specMissingUrls (get_all_listings_lightweight db site) ↔
        ∃ l, l ∈ get_all_listings_lightweight db site ∧ l.rawUrl = some u ∧
          has_details l = false) ∧
      (∀ u, u ∈ specHasUrls (get_all_listings_lightweight db site) ↔
        ∃ l, l ∈ get_all_listings_lightweight db site ∧ l.rawUrl = some u ∧
          has_details l = true) := by
  intro urls hurls
  refine ⟨?_, ?_, ?_⟩
  · unfold scrape_all_details_urls at hurls
    split at hurls
    · simp at hurls
    · split at hurls
      · simp at hurls
      · have h := Option.some.inj hurls
        rw [← h, partitionByDetails_eq]
  · intro u
    simp only [specMissingUrls, List.mem_filterMap, List.mem_filter, Bool.and_eq_true,
      Bool.not_eq_true']
    constructor
    · rintro ⟨l, ⟨hl, -, hnd⟩, hu⟩
      exact ⟨l, hl, hu, hnd⟩
    · rintro ⟨l, hl, hu, hnd⟩
      exact ⟨l, ⟨hl, by simp [hu], hnd⟩, hu⟩
  · intro u
    simp only [specHasUrls, List.mem_filterMap, List.mem_filter, Bool.and_eq_true]
    constructor
    · rintro ⟨l, ⟨hl, -, hd⟩, hu⟩
      exact ⟨l, hl, hu, hd⟩
    · rintro ⟨l, hl, hu, hd⟩
      exact ⟨l, ⟨hl, by simp [hu], hd⟩, hu⟩

/-- Store for the C8 witness: two listings missing agent contact (one
null, one empty string) and one listing with agent contact. -/
def dbC8 : DB :=
  { listings :=
      [ { raw_url := "http://k/m1", source := some "kupatana" },
        { raw_url := "http://k/h1", source := some "kupatana", agent_name := some "Agent A" },
        { raw_url := "http://k/m2", source := some "kupatana", agent_name := some "" } ] }

/-- Witness for C8: on the concrete store the sweep receives both
missing-contact urls before the single has-contact url. -/
theorem C8_missing_details_first_witness :
    scrape_all_details_urls dbC8 "kupatana" =
      some ["http://k/m1", "http://k/m2", "http://k/h1"] ∧
    (["http://k/m1", "http://k/m2", "http://k/h1"] : List String) =
      specMissingUrls (get_all_listings_lightweight dbC8 "kupatana") ++
      specHasUrls (get_all_listings_lightweight dbC8 "kupatana") := by
  refine ⟨by decide, ?_⟩
  exact (C8_missing_details_first dbC8 "kupatana"
    ["http://k/m1", "http://k/m2", "http://k/h1"] (by decide)).1

/-! ## Auto cycle (`BaseScraperService._auto_cycle_task`) -/

/-- Observable events of one auto-cycle run.  The internals of the basic
and details phases are embedded separately (`sweepRun`,
`scrape_detailed_listings_task`); here each completed phase is one
event.  `errorCooldown n secs` is the `except` handler of cycle `n`:
the exception is logged and the loop sleeps `secs` seconds before the
next cycle. -/
inductive CycleEvent
  | cycleStart (n : Nat)
  | basicSweepDone (n : Nat)
  | detailsPhaseDone (n : Nat)
  | waitingPhase (n : Nat)
  | errorCooldown (n : Nat) (seconds : Nat)
  deriving Repr, DecidableEq

/-- Environment of the auto-cycle loop: whether cycle `n`'s body raises
an unhandled exception, and the flag-read count at which the stop flag
first reads true (`none` = no stop request ever arrives; the flag is
monotone once set). -/
structure AutoEnv where
  cycleRaises : Nat → Bool
  stopAtRead : Option Nat := none

/-- Value of `_auto_cycle_should_stop` at the `r`-th read of the run. -/
def autoFlagAt (env : AutoEnv) (r : Nat) : Bool :=
  match env.stopAtRead with
  | some t => decide (t ≤ r)
  | none => false

/-- State of the auto-cycle loop: the `cycle_number` counter, how many
flag reads have happened, whether the loop has exited, and the event
trace. -/
structure AutoState where
  cycleNumber : Nat := 0
  reads : Nat := 0
  exited : Bool := false
  trace : List CycleEvent := []
  deriving Repr, DecidableEq

/-- The phase-3 wait (`while elapsed < wait_seconds and not ...`),
sleeping in chunks and polling the stop flag once per chunk. -/
def waitLoop (env : AutoEnv) : Nat → AutoState → AutoState
  | 0, s => s
  | chunks + 1, s =>
    if autoFlagAt env s.reads then { s with reads := s.reads + 1 }
    else waitLoop env chunks { s with reads := s.reads + 1 }

/-- Embedding of `_auto_cycle_task`: a `while not should_stop` loop; each
iteration increments `cycle_number` and runs the cycle body inside
`try/except`.  A body that raises is caught in the loop, logged, and
followed by a fixed 60-second cooldown before the next iteration; a body
that completes runs the basic sweep, checks the flag, runs the details
phase, checks the flag, and waits in chunks.  `waitChunks` is the number
of sleep chunks of the phase-3 wait; `fuel` bounds the number of
iterations examined. -/
def auto_cycle_task (env : AutoEnv) (waitChunks : Nat) : Nat → AutoState → AutoState
  | 0, s => s
  | fuel + 1, s =>
    if autoFlagAt env s.reads then { s with reads := s.reads + 1, exited := true }
    else if env.cycleRaises (s.cycleNumber + 1) then
      auto_cycle_task env waitChunks fuel
        { s with
          cycleNumber := s.cycleNumber + 1
          reads := s.reads + 1
          trace := s.trace ++
            [.cycleStart (s.cycleNumber + 1), .errorCooldown (s.cycleNumber + 1) 60] }
    else if autoFlagAt env (s.reads + 1) then
      { s with
        cycleNumber := s.cycleNumber + 1
        reads := s.reads + 2
        exited := true
        trace := s.trace ++
          [.cycleStart (s.cycleNumber + 1), .basicSweepDone (s.cycleNumber + 1)] }
    else if autoFlagAt env (s.reads + 2) then
      { s with
        cycleNumber := s.cycleNumber + 1
        reads := s.reads + 3
        exited := true
        trace := s.trace ++
          [.cycleStart (s.cycleNumber + 1), .basicSweepDone (s.cycleNumber + 1),
           .detailsPhaseDone (s.cycleNumber + 1)] }
    else
      auto_cycle_task env waitChunks fuel
        (waitLoop env waitChunks
          { s with
            cycleNumber := s.cycleNumber + 1
            reads := s.reads + 3
            trace := s.trace ++
              [.cycleStart (s.cycleNumber + 1), .basicSweepDone (s.cycleNumber + 1),
               .detailsPhaseDone (s.cycleNumber + 1), .waitingPhase (s.cycleNumber + 1)] })

/-- The events one cycle contributes to the trace: a failing cycle logs
its start and the 60-second cooldown; a clean cycle runs its three
phases. -/
def cycleBlock (env : AutoEnv) (n : Nat) : List CycleEvent :=
  if env.cycleRaises n then [.cycleStart n, .errorCooldown n 60]
  else [.cycleStart n, .basicSweepDone n, .detailsPhaseDone n, .waitingPhase n]

/-- The events of `count` consecutive cycles starting after cycle
`start`. -/
def cycleBlocks (env : AutoEnv) (start : Nat) : Nat → List CycleEvent
  | 0 => []
  | count + 1 => cycleBlock env (start + 1) ++ cycleBlocks env (start + 1) count

theorem waitLoop_no_stop (env : AutoEnv) (hn : env.stopAtRead = none) (chunks : Nat)
    (s : AutoState) :
    (waitLoop env chunks s).cycleNumber = s.cycleNumber ∧
    (waitLoop env chunks s).exited = s.exited ∧
    (waitLoop env chunks s).trace = s.trace := by
  induction chunks generalizing s with
  | zero => exact ⟨rfl, rfl, rfl⟩
  | succ c ih =>
    have hflag : autoFlagAt env s.reads = false := by simp [autoFlagAt, hn]
    simpa [waitLoop, hflag] using ih { s with reads := s.reads + 1 }

theorem auto_cycle_no_stop (env : AutoEnv) (hn : env.stopAtRead = none) (w : Nat)
    (fuel : Nat) : ∀ s : AutoState,
    (auto_cycle_task env w fuel s).trace = s.trace ++ cycleBlocks env s.cycleNumber fuel ∧
    (auto_cycle_task env w fuel s).exited = s.exited := by
  induction fuel with
  | zero => intro s; simp [auto_cycle_task, cycleBlocks]
  | succ fuel ih =>
    intro s
    have hflag : ∀ r, autoFlagAt env r = false := by intro r; simp [autoFlagAt, hn]
    by_cases hr : env.cycleRaises (s.cycleNumber + 1) = true
    · have hrec := ih { s with
        cycleNumber := s.cycleNumber + 1
        reads := s.reads + 1
        trace := s.trace ++
          [.cycleStart (s.cycleNumber + 1), .errorCooldown (s.cycleNumber + 1) 60] }
      constructor
      · rw [show auto_cycle_task env w (fuel + 1) s = auto_cycle_task env w fuel
            { s with
              cycleNumber := s.cycleNumber + 1
              reads := s.reads + 1
              trace := s.trace ++
                [.cycleStart (s.cycleNumber + 1), .errorCooldown (s.cycleNumber + 1) 60] } from by
            simp [auto_cycle_task, hflag, hr]]
        rw [hrec.1]
        simp [cycleBlocks, cycleBlock, hr]
      · rw [show auto_cycle_task env w (fuel + 1) s = auto_cycle_task env w fuel
            { s with
              cycleNumber := s.cycleNumber + 1
              reads := s.reads + 1
              trace := s.trace ++
                [.cycleStart (s.cycleNumber + 1), .errorCooldown (s.cycleNumber + 1) 60] } from by
            simp [auto_cycle_task, hflag, hr]]
        exact hrec.2
    · have hw := waitLoop_no_stop env hn w
        { s with
          cycleNumber := s.cycleNumber + 1
          reads := s.reads + 3
          trace := s.trace ++
            [.cycleStart (s.cycleNumber + 1), .basicSweepDone (s.cycleNumber + 1),
             .detailsPhaseDone (s.cycleNumber + 1), .waitingPhase (s.cycleNumber + 1)] }
      have hstep : auto_cycle_task env w (fuel + 1) s = auto_cycle_task env w fuel
          (waitLoop env w
            { s with
              cycleNumber := s.cycleNumber + 1
              reads := s.reads + 3
              trace := s.trace ++
                [.cycleStart (s.cycleNumber + 1), .basicSweepDone (s.cycleNumber + 1),
                 .detailsPhaseDone (s.cycleNumber + 1), .waitingPhase (s.cycleNumber + 1)] }) := by
        simp [auto_cycle_task, hflag, hr]
      have hrec := ih (waitLoop env w
        { s with
          cycleNumber := s.cycleNumber + 1
          reads := s.reads + 3
          trace := s.trace ++
            [.cycleStart (s.cycleNumber + 1), .basicSweepDone (s.cycleNumber + 1),
             .detailsPhaseDone (s.cycleNumber + 1), .waitingPhase (s.cycleNumber + 1)] })
      constructor
      · rw [hstep, hrec.1, hw.1, hw.2.2]
        simp [cycleBlocks, cycleBlock, hr]
      · rw [hstep, hrec.2, hw.2.1]

theorem cycleBlocks_split (env : AutoEnv) (start a b : Nat) :
    cycleBlocks env start (a + b) = cycleBlocks env start a ++ cycleBlocks env (start + a) b := by
  induction a generalizing start with
  | zero => simp [cycleBlocks]
  | succ a ih =>
    have : start + (a + 1) = (start + 1) + a := by omega
    simp only [Nat.succ_add, cycleBlocks, ih, List.append_assoc, this]

/-- C9: with no stop request, the auto-cycle trace is exactly one block
per cycle — a cycle whose body raises contributes its start and the fixed
60-second cooldown and the loop goes on to the next cycle — and the loop
never exits; in particular an exception in cycle `N` is caught inside the
loop and is followed, after the cooldown, by the start of cycle `N + 1`. -/
theorem C9_auto_cycle_survives_errors :
    (∀ (env : AutoEnv) (w fuel : Nat), env.stopAtRead = none →
      (auto_cycle_task env w fuel {}).trace = cycleBlocks env 0 fuel ∧
      (auto_cycle_task env w fuel {}).exited = false) ∧
    (∀ (env : AutoEnv) (w fuel N : Nat), env.stopAtRead = none →
      env.cycleRaises N = true → 1 ≤ N → N + 1 ≤ fuel →
      ∃ pre post, (auto_cycle_task env w fuel {}).trace =
        pre ++ [.errorCooldown N 60, .cycleStart (N + 1)] ++ post) := by
  constructor
  · intro env w fuel hn
    have h := auto_cycle_no_stop env hn w fuel {}
    exact ⟨by simpa using h.1, by simpa using h.2⟩
  · intro env w fuel N hn hr h1 h2
    obtain ⟨M, hM⟩ : ∃ M, fuel = (N - 1) + (M + 1 + 1) := ⟨fuel - N - 1, by omega⟩
    subst hM
    have htr : (auto_cycle_task env w ((N - 1) + (M + 1 + 1)) {}).trace =
        cycleBlocks env 0 ((N - 1) + (M + 1 + 1)) :=
      by simpa using (auto_cycle_no_stop env hn w ((N - 1) + (M + 1 + 1)) {}).1
    have hN : 0 + (N - 1) + 1 = N := by omega
    have hb : cycleBlocks env 0 ((N - 1) + (M + 1 + 1)) =
        cycleBlocks env 0 (N - 1) ++
          (cycleBlock env N ++ (cycleBlock env (N + 1) ++ cycleBlocks env (N + 1) M)) := by
      rw [cycleBlocks_split]
      simp only [cycleBlocks]
      rw [hN]
    have hblockN : cycleBlock env N = [.cycleStart N, .errorCooldown N 60] := by
      simp [cycleBlock, hr]
    obtain ⟨tl, htl⟩ : ∃ tl, cycleBlock env (N + 1) = .cycleStart (N + 1) :: tl := by
      unfold cycleBlock
      split
      · exact ⟨_, rfl⟩
      · exact ⟨_, rfl⟩
    refine ⟨cycleBlocks env 0 (N - 1) ++ [.cycleStart N],
      tl ++ cycleBlocks env (N + 1) M, ?_⟩
    rw [htr, hb, hblockN, htl]
    simp

/-- Environment for the C9 witness: cycle 2 raises, no stop request. -/
def envC9 : AutoEnv := { cycleRaises := fun n => n == 2, stopAtRead := none }

/-- Witness for C9: with cycle 2 raising, the run's trace shows the
60-second cooldown of cycle 2 immediately followed by the start of cycle
3, and the loop has not exited. -/
theorem C9_auto_cycle_survives_errors_witness :
    (∃ pre post, (auto_cycle_task envC9 3 4 {}).trace =
      pre ++ [.errorCooldown 2 60, .cycleStart 3] ++ post) ∧
    (auto_cycle_task envC9 3 4 {}).exited = false := by
  refine ⟨C9_auto_cycle_survives_errors.2 envC9 3 4 2 rfl (by decide) (by decide) (by decide), ?_⟩
  exact (C9_auto_cycle_survives_errors.1 envC9 3 4 rfl).2

/-! ## Scrape-listings endpoint (`scraping.py::scrape_all_listings`) -/

/-- Exceptions raised inside the endpoint's `try` block. -/
inductive PyExc
  | httpExc (status : Nat) (detail : String)
  | valueError (msg : String)
  deriving Repr, DecidableEq

/-- Python `str(e)` for the exceptions above (Starlette renders an
`HTTPException` as its status code followed by the detail; for the
claim only the resulting HTTP status matters). -/
def pyStr : PyExc → String
  | .httpExc c d => toString c ++ ": " ++ d
  | .valueError m => m

/-- Python `s.lower()`, written over the character list so it evaluates
inside the kernel. -/
def pyLower (s : String) : String := String.mk (s.data.map Char.toLower)

/-- The per-site scraping flags the endpoint consults through
`is_scraping_now()` (true while a run is in flight on that site's
scraper singleton). -/
structure ScraperFlags where
  jiji_scraping : Bool := false
  kupatana_scraping : Bool := false
  deriving Repr, DecidableEq

/-- Request body of `POST /scraping/scrape-listings`. -/
structure ScrapeAllRequest where
  target_site : String
  max_pages : Option Nat := none
  save_to_db : Bool := true
  deriving Repr, DecidableEq

/-- Successful endpoint return values: the background dispatch returns
`status: started`, the synchronous path returns `status: completed`. -/
inductive ScrapeBody
  | started (site : String)
  | completed (site : String)
  deriving Repr, DecidableEq

/-- The `try` block of `scrape_all_listings`: the conflict check raises
`HTTPException(409, ...)` when the target site's scraper is already
scraping, an unknown site raises `ValueError`, and otherwise the request
is dispatched (in the background when `save_to_db`, synchronously
otherwise). -/
def scrape_all_listings_body (flags : ScraperFlags) (req : ScrapeAllRequest) :
    Except PyExc ScrapeBody :=
  if pyLower req.target_site == "jiji" then
    if flags.jiji_scraping then
      .error (.httpExc 409
        "Jiji scraper is already scraping. Please wait for the current operation to complete.")
    else if req.save_to_db then .ok (.started req.target_site)
    else .ok (.completed req.target_site)
  else if pyLower req.target_site == "kupatana" then
    if flags.kupatana_scraping then
      .error (.httpExc 409
        "Kupatana scraper is already scraping. Please wait for the current operation to complete.")
    else if req.save_to_db then .ok (.started req.target_site)
    else .ok (.completed req.target_site)
  else .error (.valueError ("Unknown target site: " ++ req.target_site))

/-- What the framework ultimately sends for this request: a JSON reply or
an error status. -/
inductive HttpReply
  | okJson (status : Nat) (body : ScrapeBody)
  | err (status : Nat) (detail : String)
  deriving Repr, DecidableEq

/-- HTTP status code of a reply. -/
def statusOf : HttpReply → Nat
  | .okJson s _ => s
  | .err s _ => s

/-- Embedding of the whole `scrape_all_listings` endpoint.  Its `try` is
closed by a blanket `except Exception as e: raise
HTTPException(status_code=500, detail=str(e))` with no preceding
`except HTTPException: raise` clause (unlike the sibling endpoints
`scrape_all_details`, `stop_scraping` and `start_auto_cycle`), so the
409 conflict `HTTPException` raised inside the `try` is caught there and
re-raised as a 500.  Returns the reply together with the (unchanged)
scraper flags. -/
def scrape_all_listings_endpoint (flags : ScraperFlags) (req : ScrapeAllRequest) :
    HttpReply × ScraperFlags :=
  match scrape_all_listings_body flags req with
  | .ok b => (.okJson 200 b, flags)
  | .error e => (.err 500 (pyStr e), flags)

/-- Flags with a Kupatana basic sweep in flight. -/
def flagsC4 : ScraperFlags := { kupatana_scraping := true }

/-- A second basic-sweep request for Kupatana. -/
def reqC4 : ScrapeAllRequest := { target_site := "kupatana" }

/-- C4 (code bug): while a Kupatana sweep is active, the endpoint's
`try` body does raise the intended `HTTPException(409)` conflict, but the
blanket `except Exception` clause converts it into a 500 response, so the
caller observes HTTP 500, not 409; the in-flight run's state is left
unchanged by the rejection. -/
theorem C4_conflict_rejected_as_500_not_409 :
    scrape_all_listings_body flagsC4 reqC4 =
      .error (.httpExc 409
        "Kupatana scraper is already scraping. Please wait for the current operation to complete.") ∧
    statusOf (scrape_all_listings_endpoint flagsC4 reqC4).1 = 500 ∧
    statusOf (scrape_all_listings_endpoint flagsC4 reqC4).1 ≠ 409 ∧
    (scrape_all_listings_endpoint flagsC4 reqC4).2 = flagsC4 :=
  ⟨rfl, rfl, by decide, rfl⟩

end Wanyumba
